import Mathlib

/-!
Verification development for the PrismQ Reddit source repository.

Shallow embedding of:
  * `src/Model/db_context.py` — `DBContext` CRUD/upsert over `RedditSource` rows;
  * `src/examples.py` — `RateLimiter`, `RedditDataCollector.collect_posts`,
    `EngagementAnalyzer`, `SentimentAnalyzer`, `TopicExtractor`.

Machine reals (Python floats / SQL numerics, timestamps) are modelled as `ℚ`;
Python `None`-able parameters as `Option`; the JSON metrics blob as its decoded
association list.  The entity module `Model/reddit_source.py` is imported by
`db_context.py` but is not part of the sources; its content (columns, the
(source, source_id) uniqueness constraint, `created_at`/`updated_at` handling,
`set_score_dict` wholesale replacement) is modelled from the spec where noted.
-/

/-- Modelled from the spec: the persisted `RedditSource` entity of the absent
`Model/reddit_source.py` — surrogate `id`, natural key `(source, source_id)`,
`title`, optional `description`/`tags`/`score`, the decoded metrics mapping
(`score_dict`, empty when the stored blob is absent), a `processed` flag
defaulting to false, and `created_at`/`updated_at` timestamps. -/
structure RedditSource where
  id : Nat
  source : String
  source_id : String
  title : String
  description : Option String
  tags : Option String
  score : Option ℚ
  score_dict : List (String × ℚ)
  processed : Bool
  created_at : ℚ
  updated_at : ℚ
deriving DecidableEq, Repr

/-- The SQLite store behind `DBContext`: the rows in insertion order plus the
next value of the autoincrement primary key. -/
structure DBState where
  records : List RedditSource
  next_id : Nat
deriving DecidableEq, Repr

/-- The empty store produced by `DBContext.__init__` on a fresh database file. -/
def DBState.empty : DBState := ⟨[], 1⟩

/-- Natural-key lookup used by `read`/`update`/`delete` (`filter_by(source=...,
source_id=...).first()`). -/
def findByKey (records : List RedditSource) (source source_id : String) :
    Option RedditSource :=
  records.find? (fun r => decide (r.source = source ∧ r.source_id = source_id))

/-- Well-formedness that the storage engine guarantees: every row id was drawn
from the autoincrement counter, so ids are below `next_id` and pairwise
distinct. -/
def DBState.WF (db : DBState) : Prop :=
  (∀ r ∈ db.records, r.id < db.next_id) ∧
    db.records.Pairwise (fun a b => a.id ≠ b.id)

instance (db : DBState) : Decidable db.WF := by
  unfold DBState.WF; infer_instance

/-- The row built by `DBContext.create` (src/Model/db_context.py:79-89): a
fresh id, both timestamps set to the insertion instant, `processed` false, and
the metrics mapping applied only when the argument is truthy
(`if score_dictionary:` — both `None` and `{}` leave the default empty
mapping). -/
def createdRow (i : Nat) (now : ℚ) (source source_id title : String)
    (description : Option String) (tags : Option String) (score : Option ℚ)
    (score_dictionary : Option (List (String × ℚ))) : RedditSource :=
  { id := i, source := source, source_id := source_id,
    title := title, description := description, tags := tags,
    score := score,
    score_dict := if score_dictionary.getD [] = [] then []
      else score_dictionary.getD [],
    processed := false, created_at := now, updated_at := now }

/-- Embeds `DBContext.create` (src/Model/db_context.py:59-104).  A duplicate
natural key makes the INSERT raise `IntegrityError` (the uniqueness constraint
is Modelled from the spec, the entity module being absent); `create` catches
it, rolls the transaction back and returns `None` — the `Conflict` outcome. -/
def DBState.create (db : DBState) (now : ℚ) (source source_id title : String)
    (description : Option String) (tags : Option String) (score : Option ℚ)
    (score_dictionary : Option (List (String × ℚ))) :
    Option RedditSource × DBState :=
  if (findByKey db.records source source_id).isSome then
    (none, db)
  else
    let record : RedditSource :=
      createdRow db.next_id now source source_id title description tags score
        score_dictionary
    (some record, ⟨db.records ++ [record], db.next_id + 1⟩)

/-- Embeds `DBContext.read` (src/Model/db_context.py:106-120). -/
def DBState.read (db : DBState) (source source_id : String) :
    Option RedditSource :=
  findByKey db.records source source_id

/-- Embeds `DBContext.update` (src/Model/db_context.py:134-180): look the row
up by natural key; overwrite exactly the parameters that are not `None`
(`set_score_dict` replaces the metrics wholesale); refresh `updated_at`
(Modelled from the spec: the timestamp column of the absent entity module is
refreshed on every mutating operation); return `None` and leave the store
unchanged when the key is absent. -/
def DBState.update (db : DBState) (now : ℚ) (source source_id : String)
    (title : Option String) (description : Option String)
    (tags : Option String) (score : Option ℚ)
    (score_dictionary : Option (List (String × ℚ)))
    (processed : Option Bool) : Option RedditSource × DBState :=
  match findByKey db.records source source_id with
  | none => (none, db)
  | some record =>
    let record2 : RedditSource :=
      { record with
        title := title.getD record.title,
        description := match description with
          | some d => some d
          | none => record.description,
        tags := match tags with
          | some t => some t
          | none => record.tags,
        score := match score with
          | some s => some s
          | none => record.score,
        score_dict := match score_dictionary with
          | some d => d
          | none => record.score_dict,
        processed := processed.getD record.processed,
        updated_at := now }
    (some record2,
      ⟨db.records.map (fun r => if r.id = record.id then record2 else r),
        db.next_id⟩)

/-- Embeds `DBContext.upsert` (src/Model/db_context.py:182-221): `read`, then
`update` with every collected field (title always supplied, `processed` not
passed) when a row exists, else `create`. -/
def DBState.upsert (db : DBState) (now : ℚ) (source source_id title : String)
    (description : Option String) (tags : Option String) (score : Option ℚ)
    (score_dictionary : Option (List (String × ℚ))) :
    Option RedditSource × DBState :=
  match findByKey db.records source source_id with
  | some _ =>
    db.update now source source_id (some title) description tags score
      score_dictionary none
  | none =>
    db.create now source source_id title description tags score
      score_dictionary

/-- Embeds `DBContext.count` (src/Model/db_context.py:275-282). -/
def DBState.count (db : DBState) : Nat := db.records.length

/-- Number of stored rows carrying a given natural key. -/
def DBState.countKey (db : DBState) (source source_id : String) : Nat :=
  (db.records.filter
    (fun r => decide (r.source = source ∧ r.source_id = source_id))).length

/-- SQL ascending comparison on a nullable numeric column (SQLite sorts NULL
first in ascending order). -/
def optRatLe : Option ℚ → Option ℚ → Bool
  | none, _ => true
  | some _, none => false
  | some a, some b => decide (a ≤ b)

/-- SQL ascending comparison on a nullable text column. -/
def optStrLe : Option String → Option String → Bool
  | none, _ => true
  | some _, none => false
  | some a, some b => decide (a ≤ b)

/-- The ascending comparison selected by `getattr(RedditSource, order_by,
RedditSource.score)` in `list_all` (src/Model/db_context.py:263): each mapped
column by name, any other name falling back to the `score` column. -/
def columnLe (order_by : String) : RedditSource → RedditSource → Bool :=
  if order_by = "id" then fun a b => decide (a.id ≤ b.id)
  else if order_by = "source" then fun a b => decide (a.source ≤ b.source)
  else if order_by = "source_id" then
    fun a b => decide (a.source_id ≤ b.source_id)
  else if order_by = "title" then fun a b => decide (a.title ≤ b.title)
  else if order_by = "description" then
    fun a b => optStrLe a.description b.description
  else if order_by = "tags" then fun a b => optStrLe a.tags b.tags
  else if order_by = "score" then fun a b => optRatLe a.score b.score
  else if order_by = "processed" then
    fun a b => !a.processed || b.processed
  else if order_by = "created_at" then
    fun a b => decide (a.created_at ≤ b.created_at)
  else if order_by = "updated_at" then
    fun a b => decide (a.updated_at ≤ b.updated_at)
  else fun a b => optRatLe a.score b.score

/-- Names that `getattr` resolves on the entity class: the mapped columns plus
the two metrics-blob accessors that the absent `Model/reddit_source.py`
defines (Modelled from the spec).  Any name outside this list takes the
`getattr` default, the `score` column. -/
def isAttr (order_by : String) : Bool :=
  ["id", "source", "source_id", "title", "description", "tags", "score",
    "score_dict", "processed", "created_at", "updated_at",
    "set_score_dict", "get_score_dict"].contains order_by

/-- Embeds `DBContext.list_all` (src/Model/db_context.py:246-273): order all
rows by the requested column (descending unless `ascending`), then apply the
limit only when it is truthy (`if limit:` — `None` and `0` both skip the
`LIMIT`).  The `ORDER BY` is modelled as a stable sort by the selected
comparison. -/
def DBState.list_all (db : DBState) (limit : Option Nat) (order_by : String)
    (ascending : Bool) : List RedditSource :=
  let le := columnLe order_by
  let cmp : RedditSource → RedditSource → Bool :=
    if ascending then le else fun a b => le b a
  let sorted := List.insertionSort (fun a b => cmp a b = true) db.records
  if limit.getD 0 = 0 then sorted else sorted.take (limit.getD 0)

/-!  RateLimiter (src/examples.py:31-55).  Wall-clock time is made explicit:
`wait_if_needed` takes the instant `now` at which the call starts and returns
the total duration slept together with the state after the trailing
`self.requests.append(now)` — note the source appends the `now` captured
before the sleep, not a fresh timestamp. -/

/-- The `RateLimiter` object: its configuration plus the list of recorded
request timestamps. -/
structure RateLimiter where
  max_requests : Nat
  time_window : ℚ
  requests : List ℚ
deriving DecidableEq, Repr

/-- Embeds `RateLimiter.wait_if_needed` (src/examples.py:39-55): drop entries
at or before `now - time_window`; if at least `max_requests` remain, sleep
until the oldest remaining timestamp plus the window (plus the 0.1 s margin)
when that instant is still ahead, and clear the list; finally append `now`.
Returns (time slept, new state). -/
def RateLimiter.wait_if_needed (rl : RateLimiter) (now : ℚ) :
    ℚ × RateLimiter :=
  let reqs := rl.requests.filter (fun r => decide (now - rl.time_window < r))
  if rl.max_requests ≤ reqs.length then
    let sleep_time := reqs.headD 0 + rl.time_window - now
    if 0 < sleep_time then
      (sleep_time + 1/10, { rl with requests := [now] })
    else
      (0, { rl with requests := reqs ++ [now] })
  else
    (0, { rl with requests := reqs ++ [now] })

/-- Back-to-back `admit()` calls: each call starts the instant the previous
one returned, and only the sleeps inside `wait_if_needed` advance the clock.
Returns (admission instants in order, final state, final instant). -/
def run_admits : Nat → RateLimiter → ℚ → List ℚ × RateLimiter × ℚ
  | 0, rl, t => ([], rl, t)
  | n + 1, rl, t =>
    let p := rl.wait_if_needed t
    let t2 := t + p.1
    let rest := run_admits n p.2 t2
    (t2 :: rest.1, rest.2.1, rest.2.2)

/-- Number of admission instants falling in the trailing window `(t - w, t]`. -/
def admittedInSlice (admissions : List ℚ) (w t : ℚ) : Nat :=
  (admissions.filter (fun a => decide (t - w < a ∧ a ≤ t))).length

/-!  Collector (src/examples.py:62-222).  The praw client is an external
collaborator; it is modelled as an oracle giving, for each listing endpoint
and requested limit, the raw submissions it yields. -/

/-- A raw praw submission, restricted to the attributes `_extract_post_data`
reads (the derived ISO datetime string is elided; it is a pure rendering of
`created_utc`). -/
structure RawSubmission where
  sub_id : String
  title : String
  selftext : String
  url : String
  permalink : String
  score : Int
  upvote_ratio : ℚ
  num_comments : Int
  created_utc : ℚ
  subreddit_name : String
  author : Option String
  link_flair_text : Option String
  gilded : Int
  stickied : Bool
  over_18 : Bool
  is_self : Bool
  domain : String
deriving DecidableEq, Repr

/-- The canonical post dictionary built by `_extract_post_data`
(src/examples.py:125-146). -/
structure Post where
  post_id : String
  title : String
  selftext : String
  url : String
  permalink : String
  score : Int
  upvote_ratio : ℚ
  num_comments : Int
  created_utc : ℚ
  subreddit : String
  author : String
  flair : Option String
  gilded : Int
  stickied : Bool
  over_18 : Bool
  is_self : Bool
  domain : String
deriving DecidableEq, Repr

/-- Embeds `RedditDataCollector._extract_post_data` (src/examples.py:125-146):
`selftext` is kept only for self posts, the permalink is prefixed with the
site root, and a deleted author becomes the `[deleted]` sentinel. -/
def extract_post_data (s : RawSubmission) : Post :=
  { post_id := s.sub_id, title := s.title,
    selftext := if s.is_self then s.selftext else "",
    url := s.url, permalink := "https://reddit.com" ++ s.permalink,
    score := s.score, upvote_ratio := s.upvote_ratio,
    num_comments := s.num_comments, created_utc := s.created_utc,
    subreddit := s.subreddit_name,
    author := match s.author with
      | some a => a
      | none => "[deleted]",
    flair := s.link_flair_text, gilded := s.gilded, stickied := s.stickied,
    over_18 := s.over_18, is_self := s.is_self, domain := s.domain }

/-- The external subreddit listings: for each sort endpoint and limit, the raw
submissions the praw client returns (`top` also takes the time filter). -/
structure SubmissionSource where
  hot : Nat → List RawSubmission
  recent : Nat → List RawSubmission
  top : String → Nat → List RawSubmission
  rising : Nat → List RawSubmission

/-- The `try` block of `RedditDataCollector.collect_posts`
(src/examples.py:101-119): dispatch on the sort key, raising `ValueError` on
an unrecognized one, then extract every submission into `posts`.  `Except`
carries the raised error. -/
def collect_posts_try (src : SubmissionSource) (limit : Nat) (sort_by : String)
    (time_filter : String) : Except String (List Post) :=
  if sort_by = "hot" then .ok ((src.hot limit).map extract_post_data)
  else if sort_by = "new" then .ok ((src.recent limit).map extract_post_data)
  else if sort_by = "top" then
    .ok ((src.top time_filter limit).map extract_post_data)
  else if sort_by = "rising" then
    .ok ((src.rising limit).map extract_post_data)
  else .error ("Invalid sort_by value: " ++ sort_by)

/-- Embeds `RedditDataCollector.collect_posts` (src/examples.py:82-123): the
`except Exception` handler catches anything the `try` block raised — including
the `ValueError` for an invalid sort key — logs it, and the function returns
the `posts` accumulated so far, which is the empty list when the dispatch
itself raised. -/
def collect_posts (src : SubmissionSource) (limit : Nat) (sort_by : String)
    (time_filter : String) : List Post :=
  match collect_posts_try src limit sort_by time_filter with
  | .ok posts => posts
  | .error _ => []

/-!  EngagementAnalyzer (src/examples.py:229-268). -/

/-- Result of `calculate_engagement_velocity`. -/
structure Velocity where
  age_hours : ℚ
  score_per_hour : ℚ
  comments_per_hour : ℚ
deriving DecidableEq, Repr

/-- Embeds `EngagementAnalyzer.calculate_engagement_velocity`
(src/examples.py:232-245), with `datetime.now().timestamp()` passed in as
`now`: the age in hours is replaced by 0.1 only when it is `≤ 0`. -/
def calculate_engagement_velocity (now : ℚ) (post : Post) : Velocity :=
  let age0 := (now - post.created_utc) / 3600
  let age_hours := if age0 ≤ 0 then 1/10 else age0
  { age_hours := age_hours,
    score_per_hour := (post.score : ℚ) / age_hours,
    comments_per_hour := (post.num_comments : ℚ) / age_hours }

/-- Embeds `EngagementAnalyzer.calculate_engagement_quality`
(src/examples.py:247-262). -/
def calculate_engagement_quality (post : Post) : ℚ :=
  let score := max post.score 1
  let comment_ratio := (post.num_comments : ℚ) / (score : ℚ)
  let discussion_score := min (comment_ratio * 100) 100
  let agreement_score := post.upvote_ratio * 100
  (discussion_score + agreement_score) / 2

/-!  SentimentAnalyzer (src/examples.py:275-323).  The vader scorer is an
external black box: its availability and its per-text polarity scores are an
oracle parameter. -/

/-- The fixed-shape polarity tuple returned by
`SentimentIntensityAnalyzer.polarity_scores`. -/
structure PolarityScores where
  compound : ℚ
  pos : ℚ
  neu : ℚ
  neg : ℚ
deriving DecidableEq, Repr

/-- Result dictionary of `SentimentAnalyzer.analyze_text`. -/
structure Sentiment where
  compound : ℚ
  positive : ℚ
  neutral : ℚ
  negative : ℚ
  classification : String
deriving DecidableEq, Repr

/-- The neutral default returned when vader is unavailable or the text is
empty (src/examples.py:298-305). -/
def neutralSentiment : Sentiment :=
  { compound := 0, positive := 0, neutral := 1, negative := 0,
    classification := "neutral" }

/-- Embeds `SentimentAnalyzer.analyze_text` (src/examples.py:288-323), with
the vader scorer as an oracle: `none` models `vader_available = False`. -/
def analyze_text (vader : Option (String → PolarityScores)) (text : String) :
    Sentiment :=
  match vader with
  | none => neutralSentiment
  | some polarity =>
    if text = "" then neutralSentiment
    else
      let scores := polarity text
      { compound := scores.compound, positive := scores.pos,
        neutral := scores.neu, negative := scores.neg,
        classification :=
          if 1/20 < scores.compound then "positive"
          else if scores.compound < -(1/20) then "negative"
          else "neutral" }

/-!  TopicExtractor (src/examples.py:356-422). -/

/-- `TopicExtractor.STOP_WORDS` (src/examples.py:360-365). -/
def STOP_WORDS : List String :=
  ["the", "is", "in", "and", "to", "of", "for", "with", "on", "this",
    "that", "are", "was", "be", "by", "at", "from", "or", "an", "as",
    "it", "can", "will", "but", "not", "you", "your", "we", "my", "me",
    "i", "a", "has", "have", "had", "what", "when", "where", "who", "how"]

/-- A regex word character (`\w` over ASCII): letter, digit or underscore. -/
def isWordChar (c : Char) : Bool := c.isAlpha || c.isDigit || c = '_'

/-- Splits a character list into its maximal runs of word characters; `acc`
holds the current run reversed. -/
def wordRunsAux (acc : List Char) : List Char → List (List Char)
  | [] => if acc = [] then [] else [acc.reverse]
  | c :: cs =>
    if isWordChar c then wordRunsAux (c :: acc) cs
    else if acc = [] then wordRunsAux [] cs
    else acc.reverse :: wordRunsAux [] cs

/-- Embeds `re.findall(r'\b[a-zA-Z]{3,}\b', text.lower())`
(src/examples.py:383): lowercase the text, take the maximal word-character
runs, and keep those that are purely alphabetic with length at least 3 (a run
touching a digit or underscore has no word boundary inside it, so it never
matches). -/
def findWords (text : String) : List String :=
  ((wordRunsAux [] (text.data.map Char.toLower)).filter
    (fun run => run.all Char.isAlpha && 3 ≤ run.length)).map
    (fun run => String.mk run)

/-- One step of `collections.Counter` construction: bump the count of `w`,
keeping first-insertion order. -/
def bumpCount (w : String) : List (String × Nat) → List (String × Nat)
  | [] => [(w, 1)]
  | (x, n) :: rest =>
    if x = w then (x, n + 1) :: rest else (x, n) :: bumpCount w rest

/-- `collections.Counter(words)`: counts in first-occurrence order. -/
def countWords (words : List String) : List (String × Nat) :=
  words.foldl (fun acc w => bumpCount w acc) []

/-- `Counter.most_common(n)`: the `n` largest counts, stably ordered
(descending count, ties by first-occurrence order), modelled as a stable
insertion sort followed by `take`. -/
def mostCommon (counts : List (String × Nat)) (n : Nat) :
    List (String × Nat) :=
  (List.insertionSort (fun a b => b.2 ≤ a.2) counts).take n

/-- Embeds `TopicExtractor.extract_keywords` (src/examples.py:367-390):
join all titles with spaces, tokenize, drop stop words, count, and return the
top `top_n` (word, count) pairs. -/
def extract_keywords (posts : List Post) (top_n : Nat) :
    List (String × Nat) :=
  let all_text := String.intercalate " " (posts.map (fun p => p.title))
  let words := findWords all_text
  let kept := words.filter (fun w => !STOP_WORDS.contains w)
  mostCommon (countWords kept) top_n



/-!  Concrete inputs used by the witnesses and counterexamples below. -/

/-- The fresh limiter of the rate-limit property: 3 requests per 1-second
window, empty history. -/
def freshLimiter : RateLimiter := ⟨3, 1, []⟩

/-- A concrete canonical post, one minute old at epoch 60. -/
def basePost : Post :=
  { post_id := "p", title := "", selftext := "", url := "", permalink := "",
    score := 10, upvote_ratio := 95/100, num_comments := 5, created_utc := 0,
    subreddit := "test", author := "a", flair := none, gilded := 0,
    stickied := false, over_18 := false, is_self := true, domain := "" }

/-- First post of the keyword-extraction test vector. -/
def kwPost1 : Post :=
  { post_id := "1", title := "Best Python tips", selftext := "", url := "",
    permalink := "", score := 0, upvote_ratio := 0, num_comments := 0,
    created_utc := 0, subreddit := "", author := "", flair := none,
    gilded := 0, stickied := false, over_18 := false, is_self := true,
    domain := "" }

/-- Second post of the keyword-extraction test vector. -/
def kwPost2 : Post := { kwPost1 with title := "Python tips and tricks" }

/-- Third post of the keyword-extraction test vector. -/
def kwPost3 : Post := { kwPost1 with title := "Best practices" }

/-- A concrete raw submission for exercising the collector. -/
def sampleRaw : RawSubmission :=
  { sub_id := "abc", title := "A post", selftext := "body",
    url := "https://example.org", permalink := "/r/test/abc", score := 5,
    upvote_ratio := 9/10, num_comments := 2, created_utc := 1000,
    subreddit_name := "test", author := some "alice",
    link_flair_text := none, gilded := 0, stickied := false,
    over_18 := false, is_self := true, domain := "self.test" }

/-- An external source whose every listing yields exactly `sampleRaw`. -/
def sampleSrc : SubmissionSource :=
  { hot := fun _ => [sampleRaw], recent := fun _ => [sampleRaw],
    top := fun _ _ => [sampleRaw], rising := fun _ => [sampleRaw] }

/-- The stored row of the partial-update witness: title `T1`, description
`D1`. -/
def wrecT1 : RedditSource :=
  createdRow 1 0 "reddit" "abc" "T1" (some "D1") none none none

/-- The one-row store of the partial-update witness. -/
def wdbT1 : DBState := ⟨[wrecT1], 2⟩

/-!  Helper lemmas about the store embedding, shared by the claim theorems. -/

theorem findByKey_append_hit (l : List RedditSource) (a : RedditSource)
    (s sid : String) (h : findByKey l s sid = none)
    (ha : a.source = s ∧ a.source_id = sid) :
    findByKey (l ++ [a]) s sid = some a := by
  unfold findByKey at h ⊢
  rw [List.find?_append, h]
  simp [List.find?, ha]

theorem filterKey_nil (l : List RedditSource) (s sid : String)
    (h : findByKey l s sid = none) :
    l.filter (fun r => decide (r.source = s ∧ r.source_id = sid)) = [] := by
  unfold findByKey at h
  rw [List.find?_eq_none] at h
  rw [List.filter_eq_nil_iff]
  exact fun a ha => h a ha

theorem map_replace_fresh (l : List RedditSource) (n : Nat)
    (hlt : ∀ r ∈ l, r.id < n) (x : RedditSource) :
    l.map (fun r => if r.id = n then x else r) = l := by
  rw [List.map_congr_left (g := id)]
  · exact List.map_id l
  · intro a ha
    simp [Nat.ne_of_lt (hlt a ha)]

theorem find?_map_replace (l : List RedditSource) (p : RedditSource → Bool)
    (rec rec2 : RedditSource) (hfind : l.find? p = some rec)
    (hdist : l.Pairwise (fun a b => a.id ≠ b.id)) (hp : p rec2 = true) :
    (l.map (fun r => if r.id = rec.id then rec2 else r)).find? p =
      some rec2 := by
  induction l with
  | nil => simp at hfind
  | cons a l ih =>
    rw [List.pairwise_cons] at hdist
    by_cases hpa : p a = true
    · rw [List.find?_cons_of_pos _ hpa] at hfind
      have ha : a = rec := by injection hfind
      subst ha
      simp only [List.map_cons, if_pos rfl]
      exact List.find?_cons_of_pos _ hp
    · rw [List.find?_cons_of_neg _ hpa] at hfind
      have hne : a.id ≠ rec.id :=
        hdist.1 rec (List.mem_of_find?_eq_some hfind)
      simp only [List.map_cons, if_neg hne]
      rw [List.find?_cons_of_neg _ hpa]
      exact ih hfind hdist.2

theorem run5_eval : run_admits 5 freshLimiter 0 =
    ([0, 0, 0, 11/10, 11/10], ⟨3, 1, [11/10]⟩, 11/10) := by
  norm_num [run_admits, RateLimiter.wait_if_needed, freshLimiter, List.filter]

theorem run7_eval : run_admits 7 freshLimiter 0 =
    ([0, 0, 0, 11/10, 11/10, 11/10, 11/10], ⟨3, 1, [11/10, 11/10, 11/10]⟩,
      11/10) := by
  norm_num [run_admits, RateLimiter.wait_if_needed, freshLimiter, List.filter]

/-!  Claim theorems. -/

/-- C1: calling `upsert` twice in succession with identical arguments, on any
well-formed store without the natural key, leaves exactly one stored record
with that (source, source_id); `count` grows by exactly 1 after the first
call and by 0 after the second, and the surviving record carries the fields
of the second call (title, description, tags, score, the wholesale-replaced
metrics, and `updated_at` from the second call). -/
theorem upsert_twice_identical (db : DBState) (t1 t2 : ℚ)
    (s sid title : String) (description tags : Option String)
    (score : Option ℚ) (sd : Option (List (String × ℚ)))
    (hwf : db.WF) (h : findByKey db.records s sid = none) :
    (db.upsert t1 s sid title description tags score sd).2.count
        = db.count + 1 ∧
    ((db.upsert t1 s sid title description tags score sd).2.upsert t2 s sid
        title description tags score sd).2.count = db.count + 1 ∧
    ((db.upsert t1 s sid title description tags score sd).2.upsert t2 s sid
        title description tags score sd).2.countKey s sid = 1 ∧
    findByKey ((db.upsert t1 s sid title description tags score sd).2.upsert
        t2 s sid title description tags score sd).2.records s sid = some
      ({ id := db.next_id, source := s, source_id := sid, title := title,
         description := description, tags := tags, score := score,
         score_dict := sd.getD [], processed := false,
         created_at := t1, updated_at := t2 } : RedditSource) := by
  set rec1 : RedditSource :=
    createdRow db.next_id t1 s sid title description tags score sd with hrec1
  have hc : db.upsert t1 s sid title description tags score sd =
      (some rec1, ⟨db.records ++ [rec1], db.next_id + 1⟩) := by
    simp only [DBState.upsert, DBState.create, h, hrec1, createdRow]
    simp
  rw [hc]
  have hfind1 : findByKey (db.records ++ [rec1]) s sid = some rec1 :=
    findByKey_append_hit _ _ _ _ h ⟨rfl, rfl⟩
  have hmap : ∀ x : RedditSource,
      (db.records ++ [rec1]).map
        (fun r => if r.id = rec1.id then x else r) = db.records ++ [x] := by
    intro x
    rw [List.map_append, map_replace_fresh db.records rec1.id
      (fun r hr => hwf.1 r hr) x]
    simp
  set rec2 : RedditSource := { rec1 with title := title, score_dict := sd.getD rec1.score_dict, updated_at := t2 } with hrec2
  have hup : (⟨db.records ++ [rec1], db.next_id + 1⟩ : DBState).upsert t2 s sid
      title description tags score sd =
      (some rec2, ⟨db.records ++ [rec2], db.next_id + 1⟩) := by
    simp only [DBState.upsert, DBState.update, hfind1]
    rw [hmap]
    cases description <;> cases tags <;> cases score <;> cases sd <;> rfl
  rw [hup]
  refine ⟨by simp [DBState.count], by simp [DBState.count], ?_, ?_⟩
  · unfold DBState.countKey
    rw [List.filter_append, filterKey_nil db.records s sid h]
    simp [hrec2, hrec1, createdRow]
  · have hfin : findByKey (db.records ++ [rec2]) s sid = some rec2 :=
      findByKey_append_hit _ _ _ _ h ⟨rfl, rfl⟩
    rw [hfin]
    cases sd <;> simp [hrec2, hrec1, createdRow]

/-- C1 witness: the double upsert on the empty store, checked concretely. -/
theorem upsert_twice_identical_witness :
    DBState.empty.WF ∧ findByKey DBState.empty.records "reddit" "abc" = none ∧
    ((DBState.empty.upsert 0 "reddit" "abc" "T" none none none none).2.upsert
        1 "reddit" "abc" "T" none none none none).2.count =
      DBState.empty.count + 1 ∧
    findByKey ((DBState.empty.upsert 0 "reddit" "abc" "T" none none none
        none).2.upsert 1 "reddit" "abc" "T" none none none none).2.records
      "reddit" "abc" = some
      ({ id := 1, source := "reddit", source_id := "abc", title := "T",
         description := none, tags := none, score := none, score_dict := [],
         processed := false, created_at := 0, updated_at := 1 } :
        RedditSource) := by
  have hmain := upsert_twice_identical DBState.empty 0 1 "reddit" "abc" "T"
    none none none none (by decide) rfl
  exact ⟨by decide, rfl, hmain.2.1, hmain.2.2.2⟩

/-- C2 counterexample: the claimed trailing-window invariant fails on the code
as stated — seven back-to-back `admit()` calls on a fresh limiter with
`max_requests = 3`, `time_window = 1` put four admissions inside the trailing
1-second slice ending at instant 11/10 (after a sleep the window is cleared
and the pre-sleep timestamp recorded, so the three calls that follow the
sleeping call are admitted immediately). -/
theorem rate_limiter_window_violation :
    admittedInSlice (run_admits 7 freshLimiter 0).1 1 (11/10) = 4 ∧
    ¬ admittedInSlice (run_admits 7 freshLimiter 0).1 1 (11/10) ≤ 3 := by
  rw [run7_eval]
  unfold admittedInSlice
  norm_num [List.filter]

/-- C2 as amended: with `max_requests = 3` and `time_window = 1` second, five
back-to-back `admit()` calls on a fresh limiter take 11/10 ≥ 1 second of total
elapsed time, and within that five-call sequence no trailing 1-second slice
ever contains more than 3 admissions; the trailing-window bound holds for the
stated five-call scenario but not for arbitrary sequences of calls. -/
theorem rate_limiter_five_calls_bound :
    1 ≤ (run_admits 5 freshLimiter 0).2.2 - 0 ∧
    ∀ t : ℚ, admittedInSlice (run_admits 5 freshLimiter 0).1 1 t ≤ 3 := by
  constructor
  · rw [run5_eval]
    norm_num
  · intro t
    rw [run5_eval]
    unfold admittedInSlice
    by_cases c1 : t < 1 <;> by_cases c2 : (0:ℚ) ≤ t <;>
      by_cases c3 : t - 1 < 11/10 <;> by_cases c4 : (11:ℚ)/10 ≤ t <;>
        simp [List.filter, c1, c2, c3, c4] <;> linarith

/-- C3: on any store without the natural key, the first `create` stores its
row and the second `create` with the same (source, source_id) but another
title returns the `Conflict` outcome (`None`, not a raised fault), leaves the
store completely unchanged, and exactly one row with that key — carrying the
first title — remains. -/
theorem create_duplicate_conflict (db : DBState) (t1 t2 : ℚ)
    (s sid title1 title2 : String) (d1 d2 g1 g2 : Option String)
    (sc1 sc2 : Option ℚ) (m1 m2 : Option (List (String × ℚ)))
    (h : findByKey db.records s sid = none) (hne : title1 ≠ title2) :
    (db.create t1 s sid title1 d1 g1 sc1 m1).1 =
      some (createdRow db.next_id t1 s sid title1 d1 g1 sc1 m1) ∧
    ((db.create t1 s sid title1 d1 g1 sc1 m1).2.create t2 s sid title2 d2 g2
        sc2 m2).1 = none ∧
    ((db.create t1 s sid title1 d1 g1 sc1 m1).2.create t2 s sid title2 d2 g2
        sc2 m2).2 = (db.create t1 s sid title1 d1 g1 sc1 m1).2 ∧
    (db.create t1 s sid title1 d1 g1 sc1 m1).2.countKey s sid = 1 ∧
    (findByKey (db.create t1 s sid title1 d1 g1 sc1 m1).2.records s sid).map
        (fun r => r.title) = some title1 := by
  set rec1 : RedditSource :=
    createdRow db.next_id t1 s sid title1 d1 g1 sc1 m1 with hrec1
  have hc : db.create t1 s sid title1 d1 g1 sc1 m1 =
      (some rec1, ⟨db.records ++ [rec1], db.next_id + 1⟩) := by
    simp only [DBState.create, h, hrec1, createdRow]
    simp
  have hfind1 : findByKey (db.records ++ [rec1]) s sid = some rec1 :=
    findByKey_append_hit _ _ _ _ h ⟨rfl, rfl⟩
  rw [hc]
  refine ⟨rfl, ?_, ?_, ?_, ?_⟩
  · simp only [DBState.create, hfind1]
    simp
  · simp only [DBState.create, hfind1]
    simp
  · unfold DBState.countKey
    rw [List.filter_append, filterKey_nil db.records s sid h]
    simp [hrec1, createdRow]
  · rw [hfind1]
    simp [hrec1, createdRow]

/-- C3 witness: the duplicate create on the empty store, checked concretely. -/
theorem create_duplicate_conflict_witness :
    findByKey DBState.empty.records "reddit" "abc" = none ∧ "T1" ≠ "T2" ∧
    ((DBState.empty.create 0 "reddit" "abc" "T1" none none none
        none).2.create 1 "reddit" "abc" "T2" none none none none).1 = none ∧
    (findByKey (DBState.empty.create 0 "reddit" "abc" "T1" none none none
        none).2.records "reddit" "abc").map (fun r => r.title) =
      some "T1" := by
  have hmain := create_duplicate_conflict DBState.empty 0 1 "reddit" "abc"
    "T1" "T2" none none none none none none none none rfl (by decide)
  exact ⟨rfl, by decide, hmain.2.1, hmain.2.2.2.2⟩

/-- C4: on a well-formed store holding the natural key, `update` overwrites
exactly the supplied fields (an omitted field keeps its prior value, the
metrics replace wholesale) and refreshes `updated_at`; the updated row is both
returned and stored, the row count is unchanged; and on a key the store does
not hold, `update` returns the NotFound outcome (`None`) with the store
unchanged. -/
theorem update_partial_fields (db : DBState) (now : ℚ) (s sid : String)
    (title description tags : Option String) (score : Option ℚ)
    (sd : Option (List (String × ℚ))) (processed : Option Bool)
    (rec : RedditSource) (hwf : db.WF)
    (h : findByKey db.records s sid = some rec) :
    (db.update now s sid title description tags score sd processed).1 =
      some { rec with title := title.getD rec.title, description := description.or rec.description, tags := tags.or rec.tags, score := score.or rec.score, score_dict := sd.getD rec.score_dict, processed := processed.getD rec.processed, updated_at := now } ∧
    findByKey (db.update now s sid title description tags score sd
        processed).2.records s sid =
      some { rec with title := title.getD rec.title, description := description.or rec.description, tags := tags.or rec.tags, score := score.or rec.score, score_dict := sd.getD rec.score_dict, processed := processed.getD rec.processed, updated_at := now } ∧
    (db.update now s sid title description tags score sd processed).2.count =
      db.count ∧
    ∀ s2 sid2, findByKey db.records s2 sid2 = none →
      db.update now s2 sid2 title description tags score sd processed =
        (none, db) := by
  set rec2 : RedditSource := { rec with title := title.getD rec.title, description := description.or rec.description, tags := tags.or rec.tags, score := score.or rec.score, score_dict := sd.getD rec.score_dict, processed := processed.getD rec.processed, updated_at := now } with hrec2
  have hkey : rec.source = s ∧ rec.source_id = sid := by
    unfold findByKey at h
    have := List.find?_some h
    simpa using this
  have hu : db.update now s sid title description tags score sd processed =
      (some rec2,
        ⟨db.records.map (fun r => if r.id = rec.id then rec2 else r),
          db.next_id⟩) := by
    simp only [DBState.update, h]
    cases description <;> cases tags <;> cases score <;> cases sd <;> rfl
  rw [hu]
  refine ⟨rfl, ?_, by simp [DBState.count], ?_⟩
  · unfold findByKey at h ⊢
    exact find?_map_replace db.records _ rec rec2 h hwf.2
      (by simp [hrec2, hkey.1, hkey.2])
  · intro s2 sid2 h2
    simp only [DBState.update, h2]

/-- C4 witness: a store holding title `T1`, description `D1`; updating only
the title to `T2` yields title `T2` with description `D1` unchanged and
`updated_at` refreshed to the update instant. -/
theorem update_partial_fields_witness :
    wdbT1.WF ∧ findByKey wdbT1.records "reddit" "abc" = some wrecT1 ∧
    (wdbT1.update 5 "reddit" "abc" (some "T2") none none none none none).1 =
      some
      ({ id := 1, source := "reddit", source_id := "abc", title := "T2",
         description := some "D1", tags := none, score := none,
         score_dict := [], processed := false, created_at := 0,
         updated_at := 5 } : RedditSource) := by
  have hmain := update_partial_fields wdbT1 5 "reddit" "abc" (some "T2") none
    none none none none wrecT1 (by decide) rfl
  exact ⟨by decide, rfl, hmain.1⟩

/-- C5 counterexample: `velocity` does not floor the age at 0.1 hours — for a
record created at epoch 0 observed at epoch 60 (one minute old), the code
yields ageHours = 1/60, not max(0.1, 1/60) = 0.1 as the claim states. -/
theorem velocity_floor_counterexample :
    (calculate_engagement_velocity 60 basePost).age_hours = 1/60 ∧
    max (1/10 : ℚ) ((60 - basePost.created_utc) / 3600) = 1/10 ∧
    ¬ (calculate_engagement_velocity 60 basePost).age_hours =
        max (1/10 : ℚ) ((60 - basePost.created_utc) / 3600) := by
  norm_num [calculate_engagement_velocity, basePost, max_def]

/-- C5 as amended: `velocity` returns ageHours equal to
(now - createdEpoch)/3600 whenever that quantity is positive — including ages
under 6 minutes — and replaces it by 0.1 only when it is zero or negative;
ageHours is always positive, and scorePerHour and commentsPerHour are
score/ageHours and commentCount/ageHours. -/
theorem velocity_age_floor (now : ℚ) (post : Post) :
    ((now - post.created_utc) / 3600 ≤ 0 →
      (calculate_engagement_velocity now post).age_hours = 1/10) ∧
    (0 < (now - post.created_utc) / 3600 →
      (calculate_engagement_velocity now post).age_hours =
        (now - post.created_utc) / 3600) ∧
    0 < (calculate_engagement_velocity now post).age_hours ∧
    (calculate_engagement_velocity now post).score_per_hour =
      (post.score : ℚ) / (calculate_engagement_velocity now post).age_hours ∧
    (calculate_engagement_velocity now post).comments_per_hour =
      (post.num_comments : ℚ) /
        (calculate_engagement_velocity now post).age_hours := by
  by_cases hage : (now - post.created_utc) / 3600 ≤ 0
  · have hred : calculate_engagement_velocity now post =
        { age_hours := 1/10, score_per_hour := (post.score : ℚ) / (1/10), comments_per_hour := (post.num_comments : ℚ) / (1/10) } := by
      simp [calculate_engagement_velocity, hage]
    rw [hred]
    refine ⟨fun _ => rfl, fun hpos => absurd hpos (by linarith), by norm_num,
      rfl, rfl⟩
  · have hred : calculate_engagement_velocity now post =
        { age_hours := (now - post.created_utc) / 3600, score_per_hour := (post.score : ℚ) / ((now - post.created_utc) / 3600), comments_per_hour := (post.num_comments : ℚ) / ((now - post.created_utc) / 3600) } := by
      simp [calculate_engagement_velocity, hage]
    rw [hred]
    push_neg at hage
    exact ⟨fun hle => absurd hle (by linarith), fun _ => rfl, hage, rfl, rfl⟩

/-- C5 amended witness: a record of age exactly zero gets the 0.1-hour
floor. -/
theorem velocity_age_floor_witness :
    (calculate_engagement_velocity 0 basePost).age_hours = 1/10 :=
  (velocity_age_floor 0 basePost).1 (by simp [basePost])

/-- C6: an unrecognized sort key makes the dispatch in `collect_posts` raise
`ValueError`, so zero items are fetched — but the blanket exception handler of
the same function swallows the fault and the caller receives a plain empty
list instead of the promised immediately-reported usage fault (a recognized
key on the same source does fetch items, so the empty result is not
vacuous). -/
theorem collect_posts_invalid_sort :
    collect_posts_try sampleSrc 10 "invalid" "day" =
      Except.error "Invalid sort_by value: invalid" ∧
    collect_posts sampleSrc 10 "invalid" "day" = [] ∧
    collect_posts sampleSrc 10 "hot" "day" ≠ [] := by
  refine ⟨rfl, rfl, ?_⟩
  intro hx
  simp [collect_posts, collect_posts_try, sampleSrc] at hx

/-- C7: for records with a nonnegative comment count and an upvote ratio in
[0, 1], the engagement quality lies in [0, 100], equals the average of
min(100 * commentCount / max(score, 1), 100) and 100 * upvoteRatio, and
depends on nothing but (score, commentCount, upvoteRatio). -/
theorem engagement_quality_bounds (post : Post) (h1 : 0 ≤ post.num_comments)
    (h2 : 0 ≤ post.upvote_ratio) (h3 : post.upvote_ratio ≤ 1) :
    0 ≤ calculate_engagement_quality post ∧
    calculate_engagement_quality post ≤ 100 ∧
    calculate_engagement_quality post =
      (min (100 * (post.num_comments : ℚ) / ((max post.score 1 : ℤ) : ℚ)) 100
        + 100 * post.upvote_ratio) / 2 ∧
    ∀ q : Post, q.score = post.score → q.num_comments = post.num_comments →
      q.upvote_ratio = post.upvote_ratio →
      calculate_engagement_quality q = calculate_engagement_quality post := by
  have expand : ∀ r : Post, calculate_engagement_quality r =
      (min ((r.num_comments : ℚ) / ((max r.score 1 : ℤ) : ℚ) * 100) 100 +
        r.upvote_ratio * 100) / 2 := fun r => rfl
  have hs : (1 : ℚ) ≤ ((max post.score 1 : ℤ) : ℚ) := by
    exact_mod_cast le_max_right post.score 1
  have hs0 : (0 : ℚ) < ((max post.score 1 : ℤ) : ℚ) := by linarith
  have hc : (0 : ℚ) ≤ (post.num_comments : ℚ) := by exact_mod_cast h1
  have hratio : (0 : ℚ) ≤
      (post.num_comments : ℚ) / ((max post.score 1 : ℤ) : ℚ) :=
    div_nonneg hc (le_of_lt hs0)
  refine ⟨?_, ?_, ?_, ?_⟩
  · rw [expand]
    have hd : (0:ℚ) ≤
        min ((post.num_comments : ℚ) / ((max post.score 1 : ℤ) : ℚ) * 100)
          100 := le_min (by nlinarith) (by norm_num)
    have ha : (0:ℚ) ≤ post.upvote_ratio * 100 := by nlinarith
    linarith
  · rw [expand]
    have hd :
        min ((post.num_comments : ℚ) / ((max post.score 1 : ℤ) : ℚ) * 100)
          100 ≤ 100 := min_le_right _ _
    have ha : post.upvote_ratio * 100 ≤ 100 := by nlinarith
    linarith
  · rw [expand]
    ring_nf
  · intro q hq1 hq2 hq3
    rw [expand, expand, hq1, hq2, hq3]

/-- C7 witness: the bounds at the concrete post with score 10, 5 comments and
upvote ratio 95/100. -/
theorem engagement_quality_bounds_witness :
    (0 : ℤ) ≤ basePost.num_comments ∧ (0 : ℚ) ≤ basePost.upvote_ratio ∧
    basePost.upvote_ratio ≤ 1 ∧
    0 ≤ calculate_engagement_quality basePost ∧
    calculate_engagement_quality basePost ≤ 100 := by
  have h2 : (0 : ℚ) ≤ basePost.upvote_ratio := by
    simp [basePost]
    norm_num
  have h3 : basePost.upvote_ratio ≤ 1 := by
    simp [basePost]
    norm_num
  have hmain := engagement_quality_bounds basePost (by decide) h2 h3
  exact ⟨by decide, h2, h3, hmain.1, hmain.2.1⟩

/-- C8: on the titles [Best Python tips, Python tips and tricks,
Best practices] with topN = 3, keyword extraction returns exactly the pairs
(best, 2), (python, 2), (tips, 2) in first-seen order, with the stop word
"and" removed; and on every input the returned sequence is ordered by
descending count. -/
theorem extract_keywords_example :
    extract_keywords [kwPost1, kwPost2, kwPost3] 3 =
      [("best", 2), ("python", 2), ("tips", 2)] ∧
    ∀ (posts : List Post) (n : Nat),
      List.Sorted (fun a b : String × Nat => b.2 ≤ a.2)
        (extract_keywords posts n) := by
  refine ⟨by decide, ?_⟩
  intro posts n
  unfold extract_keywords mostCommon
  haveI : IsTotal (String × Nat) (fun a b : String × Nat => b.2 ≤ a.2) :=
    ⟨fun a b => le_total b.2 a.2⟩
  haveI : IsTrans (String × Nat) (fun a b : String × Nat => b.2 ≤ a.2) :=
    ⟨fun _ _ _ hab hbc => le_trans hbc hab⟩
  exact List.Pairwise.sublist (List.take_sublist _ _)
    (List.sorted_insertionSort _ _)

/-- C9: `analyze_text` labels positive exactly when the compound score
exceeds 1/20, negative exactly when it is below -(1/20), neutral otherwise;
and when the polarity scorer is unavailable or the text is empty, it returns
the fixed neutral tuple (0, 0, 1, 0, neutral) instead of failing. -/
theorem analyze_text_thresholds (vader : Option (String → PolarityScores))
    (text : String) :
    ((analyze_text vader text).classification = "positive" ↔
      1/20 < (analyze_text vader text).compound) ∧
    ((analyze_text vader text).classification = "negative" ↔
      (analyze_text vader text).compound < -(1/20)) ∧
    ((analyze_text vader text).classification = "neutral" ↔
      (-(1/20) ≤ (analyze_text vader text).compound ∧
        (analyze_text vader text).compound ≤ 1/20)) ∧
    ((vader = none ∨ text = "") →
      analyze_text vader text = neutralSentiment) := by
  have hneutral :
      (neutralSentiment.classification = "positive" ↔
        1/20 < neutralSentiment.compound) ∧
      (neutralSentiment.classification = "negative" ↔
        neutralSentiment.compound < -(1/20)) ∧
      (neutralSentiment.classification = "neutral" ↔
        (-(1/20) ≤ neutralSentiment.compound ∧
          neutralSentiment.compound ≤ 1/20)) := by
    refine ⟨⟨fun hx => absurd hx (by decide),
      fun hlt => absurd hlt (by norm_num [neutralSentiment])⟩,
      ⟨fun hx => absurd hx (by decide),
        fun hlt => absurd hlt (by norm_num [neutralSentiment])⟩,
      ⟨fun _ => ⟨by norm_num [neutralSentiment],
        by norm_num [neutralSentiment]⟩, fun _ => rfl⟩⟩
  cases vader with
  | none =>
    exact ⟨hneutral.1, hneutral.2.1, hneutral.2.2, fun _ => rfl⟩
  | some polarity =>
    by_cases ht : text = ""
    · have hred : analyze_text (some polarity) text = neutralSentiment := by
        simp [analyze_text, ht]
      rw [hred]
      exact ⟨hneutral.1, hneutral.2.1, hneutral.2.2, fun _ => rfl⟩
    · have hred : analyze_text (some polarity) text =
          { compound := (polarity text).compound, positive := (polarity text).pos, neutral := (polarity text).neu, negative := (polarity text).neg, classification := if 1/20 < (polarity text).compound then "positive" else if (polarity text).compound < -(1/20) then "negative" else "neutral" } := by
        simp [analyze_text, ht]
      rw [hred]
      by_cases hp : 1/20 < (polarity text).compound
      · rw [if_pos hp]
        refine ⟨⟨fun _ => hp, fun _ => rfl⟩,
          ⟨fun hx => by simp at hx, fun hlt => absurd hlt (by linarith)⟩,
          ⟨fun hx => by simp at hx,
            fun hpair => absurd hpair.2 (by linarith)⟩,
          fun hor => ?_⟩
        rcases hor with hx | hx
        · exact Option.noConfusion hx
        · exact absurd hx ht
      · rw [if_neg hp]
        push_neg at hp
        by_cases hn : (polarity text).compound < -(1/20)
        · rw [if_pos hn]
          refine ⟨⟨fun hx => by simp at hx,
            fun hlt => absurd hlt (by linarith)⟩,
            ⟨fun _ => hn, fun _ => rfl⟩,
            ⟨fun hx => by simp at hx,
              fun hpair => absurd hpair.1 (by linarith)⟩,
            fun hor => ?_⟩
          rcases hor with hx | hx
          · exact Option.noConfusion hx
          · exact absurd hx ht
        · rw [if_neg hn]
          push_neg at hn
          refine ⟨⟨fun hx => by simp at hx,
            fun hlt => absurd hlt (by linarith)⟩,
            ⟨fun hx => by simp at hx,
              fun hlt => absurd hlt (by linarith)⟩,
            ⟨fun _ => ⟨hn, hp⟩, fun _ => rfl⟩,
            fun hor => ?_⟩
          rcases hor with hx | hx
          · exact Option.noConfusion hx
          · exact absurd hx ht

/-- C9 witness: the unavailable-scorer case returns the neutral default. -/
theorem analyze_text_thresholds_witness :
    analyze_text none "some text" = neutralSentiment :=
  (analyze_text_thresholds none "some text").2.2.2 (Or.inl rfl)

/-- C10: `list_all` with limit 0 behaves exactly like no limit at all — the
limit is applied only when truthy — so every stored record is returned,
ordered by the requested column; and an order-by name that is not an
attribute of the record type falls back to ordering by the score column. -/
theorem list_all_limit_fallback (db : DBState) (ob : String) (asc : Bool)
    (lim : Option Nat) (h : isAttr ob = false) :
    db.list_all (some 0) ob asc = db.list_all none ob asc ∧
    (db.list_all (some 0) ob asc).Perm db.records ∧
    db.list_all lim ob asc = db.list_all lim "score" asc := by
  have hne : ob ≠ "id" ∧ ob ≠ "source" ∧ ob ≠ "source_id" ∧ ob ≠ "title" ∧
      ob ≠ "description" ∧ ob ≠ "tags" ∧ ob ≠ "score" ∧ ob ≠ "processed" ∧
      ob ≠ "created_at" ∧ ob ≠ "updated_at" := by
    simp [isAttr] at h
    tauto
  have hcol : columnLe ob = columnLe "score" := by
    unfold columnLe
    rw [if_neg hne.1, if_neg hne.2.1, if_neg hne.2.2.1, if_neg hne.2.2.2.1,
      if_neg hne.2.2.2.2.1, if_neg hne.2.2.2.2.2.1, if_neg hne.2.2.2.2.2.2.1,
      if_neg hne.2.2.2.2.2.2.2.1, if_neg hne.2.2.2.2.2.2.2.2.1,
      if_neg hne.2.2.2.2.2.2.2.2.2]
    simp
  refine ⟨rfl, ?_, ?_⟩
  · unfold DBState.list_all
    simp only [Option.getD_some, if_pos rfl]
    exact List.perm_insertionSort _ _
  · unfold DBState.list_all
    rw [hcol]

/-- C10 witness: with a one-row store and the unknown column name `bogus`,
limit 0 returns the full listing and the ordering equals the score
ordering. -/
theorem list_all_limit_fallback_witness :
    isAttr "bogus" = false ∧
    wdbT1.list_all (some 0) "bogus" false =
      wdbT1.list_all none "bogus" false ∧
    wdbT1.list_all (some 5) "bogus" false =
      wdbT1.list_all (some 5) "score" false := by
  have hmain := list_all_limit_fallback wdbT1 "bogus" false (some 5)
    (by decide)
  exact ⟨by decide, hmain.1, hmain.2.2⟩
